import Mathlib

/-!
Shallow embedding of the MediaPipe JNI `Graph` wrapper
(`mediapipe/java/com/google/mediapipe/framework/jni/graph.cc` and
`graph_jni.cc`), of `CalculatorContract`
(`mediapipe/framework/calculator_contract.h`), and of two calculators
(`color_convert_calculator.cc`,
`tflite_tensors_to_segmentation_calculator.cc`), together with theorems
settling the frozen claims about them.

External code (the `CalculatorGraph` engine in `calculator_framework.h`,
protobuf parsing, OpenCV, JNI) is not part of this repository snapshot;
where the result of an operation depends on such a call, the outcome of the call is
passed in as an explicit argument, and the few pieces of engine state that
the wrapper itself sets are modelled from the specification (each such
definition says so in its doc comment).
-/

namespace Mediapipe

/-- Canonical status codes of `mediapipe::StatusCode` (absl codes). -/
inductive StatusCode where
  | ok
  | cancelled
  | invalidArgument
  | failedPrecondition
  | internal
  | unavailable
  | alreadyExists
  | unimplemented
  deriving DecidableEq, Repr

/-- The `mediapipe::Status`: a code plus a message. -/
structure Status where
  code : StatusCode
  message : String
  deriving DecidableEq, Repr

/-- The `status.ok()`. -/
def Status.isOk (s : Status) : Bool := s.code == StatusCode.ok

/-- The `mediapipe::OkStatus()`. -/
def OkStatus : Status := ⟨StatusCode.ok, ""⟩

/-- The `mediapipe::InvalidArgumentError(msg)`. -/
def InvalidArgumentError (msg : String) : Status := ⟨StatusCode.invalidArgument, msg⟩

/-- The `mediapipe::FailedPreconditionError(msg)`. -/
def FailedPreconditionError (msg : String) : Status := ⟨StatusCode.failedPrecondition, msg⟩

/-- The `mediapipe::InternalError(msg)`. -/
def InternalError (msg : String) : Status := ⟨StatusCode.internal, msg⟩

/-- One node of a `CalculatorGraphConfig` proto: calculator name plus the
stream names it consumes and produces. -/
structure NodeConfig where
  calculator : String
  input_stream : List String
  output_stream : List String
  deriving DecidableEq, Repr

/-- The parsed `CalculatorGraphConfig` proto: graph-level input streams and
the node list (the parts relevant to loading and validation). -/
structure CalculatorGraphConfig where
  input_stream : List String
  node : List NodeConfig
  deriving DecidableEq, Repr

/-- The empty config a fresh `Graph` holds before any load. -/
def CalculatorGraphConfig.default : CalculatorGraphConfig := ⟨[], []⟩

/-- All producer occurrences of a config: each graph-level input stream and
each node output stream contributes one occurrence of its stream name. -/
def producedStreams (c : CalculatorGraphConfig) : List String :=
  c.input_stream ++ (c.node.map (fun n => n.output_stream)).flatten

/-- Modelled from the spec: well-formedness invariant 1 of the graph
topology ("Every input port is connected to at most one producer"; spec
section 3): a config has a duplicate producer when two producers share one
stream name.  The validation code itself (`CalculatorGraph::Initialize`)
is not under `src/`. -/
def hasDuplicateProducer (c : CalculatorGraphConfig) : Bool :=
  (producedStreams c).length ≠ (producedStreams c).eraseDups.length

/-- The `mediapipe::CalculatorGraph::GraphInputStreamAddMode`. -/
inductive GraphInputStreamAddMode where
  | WAIT_TILL_NOT_FULL
  | ADD_IF_NOT_FULL
  deriving DecidableEq, Repr

/-- Modelled from the spec: the running `mediapipe::CalculatorGraph`
engine (`calculator_framework.h`, not under `src/`).  Only the pieces of
state that the JNI `Graph` wrapper itself sets are kept: the
graph-input-stream add mode installed by `SetGraphInputStreamAddMode`, the
cancellation flag set by `Cancel` (per the spec, "cancel() sets a flag
observed between invocations"), and whether `StartRun` succeeded (per the
spec, "returns once the scheduler is running"). -/
structure CalculatorGraph where
  addMode : GraphInputStreamAddMode
  cancelled : Bool
  schedulerRunning : Bool
  deriving DecidableEq, Repr

/-- Modelled from the spec: `CalculatorGraph::Cancel` sets the
cancellation flag (spec section 5, "cancel() sets a flag observed between
invocations"). -/
def CalculatorGraph.Cancel (g : CalculatorGraph) : CalculatorGraph :=
  { g with cancelled := true }

/-- A packet: a timestamped payload (payloads are opaque; a `Nat` id
stands for the shared, reference-counted value). -/
structure Packet where
  payload : Nat
  timestamp : Int
  deriving DecidableEq, Repr

/-- The native `mediapipe::android::Graph` wrapper state (`graph.cc`):
the parsed config `graph_`, the `graph_loaded_` flag, the optional running
engine `running_graph_`, the stored add mode, side packets, stream
headers, and the packet-reference map `all_packets_`.  Map keys are the
`PacketWithContext*` pointers; `nextHandle` models the allocator handing
out fresh addresses (every live key is below it). -/
structure Graph where
  graph_loaded : Bool
  graph : CalculatorGraphConfig
  running_graph : Option CalculatorGraph
  graph_input_stream_add_mode : GraphInputStreamAddMode
  side_packets : List (String × Packet)
  stream_headers : List (String × Packet)
  all_packets : List (Nat × Packet)
  nextHandle : Nat
  deriving DecidableEq, Repr

/-- The `Graph::Graph()`: fresh wrapper, nothing loaded, nothing running. -/
def Graph.init : Graph :=
  { graph_loaded := false
    graph := CalculatorGraphConfig.default
    running_graph := none
    graph_input_stream_add_mode := GraphInputStreamAddMode.WAIT_TILL_NOT_FULL
    side_packets := []
    stream_headers := []
    all_packets := []
    nextHandle := 0 }

/-- The `Graph::LoadBinaryGraph(const char* data, int size)` (`graph.cc`):
`parsed` is the outcome of the external protobuf
`graph_.ParseFromArray(data, size)`.  On parse failure the call returns
`InvalidArgumentError` and changes nothing; on success it stores the
config and sets `graph_loaded_`.  No topology validation happens here. -/
def Graph.LoadBinaryGraphBytes (g : Graph)
    (parsed : Option CalculatorGraphConfig) : Status × Graph :=
  match parsed with
  | none => (InvalidArgumentError "Failed to parse the graph", g)
  | some cfg =>
      (OkStatus, { g with graph := cfg, graph_loaded := true })

/-- The `Graph::LoadBinaryGraph(std::string path_to_graph)` (`graph.cc`):
`contents` is the outcome of the external
`mediapipe::file::GetContents` (an error status, or the raw bytes), and
`parse` is the external protobuf parser applied to those bytes.  A read
failure is returned as is; otherwise the logic of the byte-array overload
runs. -/
def Graph.LoadBinaryGraphFile (g : Graph)
    (contents : Except Status (List Nat))
    (parse : List Nat → Option CalculatorGraphConfig) : Status × Graph :=
  match contents with
  | Except.error s => (s, g)
  | Except.ok bytes =>
      match parse bytes with
      | none => (InvalidArgumentError "Failed to parse the graph", g)
      | some cfg => (OkStatus, { g with graph := cfg, graph_loaded := true })

/-- The `Graph::AddPacketToInputStream` (`graph.cc`): fails with
`FailedPreconditionError` unless a run is in progress; otherwise the
result is whatever the engine call
`running_graph_->AddPacketToInputStream` returns (`engineResult`, an
external call). -/
def Graph.AddPacketToInputStream (g : Graph) (engineResult : Status) :
    Status × Graph :=
  match g.running_graph with
  | none => (FailedPreconditionError "Graph must be running.", g)
  | some _ => (engineResult, g)

/-- The `Graph::CloseInputStream` (`graph.cc`): same guard, then the engine
call `running_graph_->CloseInputStream`. -/
def Graph.CloseInputStream (g : Graph) (engineResult : Status) :
    Status × Graph :=
  match g.running_graph with
  | none => (FailedPreconditionError "Graph must be running.", g)
  | some _ => (engineResult, g)

/-- The `Graph::CloseAllInputStreams` (`graph.cc`). -/
def Graph.CloseAllInputStreams (g : Graph) (engineResult : Status) :
    Status × Graph :=
  match g.running_graph with
  | none => (FailedPreconditionError "Graph must be running.", g)
  | some _ => (engineResult, g)

/-- The `Graph::CloseAllPacketSources` (`graph.cc`). -/
def Graph.CloseAllPacketSources (g : Graph) (engineResult : Status) :
    Status × Graph :=
  match g.running_graph with
  | none => (FailedPreconditionError "Graph must be running.", g)
  | some _ => (engineResult, g)

/-- The `Graph::WaitUntilDone` (`graph.cc`): same guard; on a running graph it
returns the engine `WaitUntilDone` status and resets `running_graph_`
to null. -/
def Graph.WaitUntilDone (g : Graph) (engineResult : Status) :
    Status × Graph :=
  match g.running_graph with
  | none => (FailedPreconditionError "Graph must be running.", g)
  | some _ => (engineResult, { g with running_graph := none })

/-- The `Graph::WaitUntilIdle` (`graph.cc`). -/
def Graph.WaitUntilIdle (g : Graph) (engineResult : Status) :
    Status × Graph :=
  match g.running_graph with
  | none => (FailedPreconditionError "Graph must be running.", g)
  | some _ => (engineResult, g)

/-- The `Graph::SetGraphInputStreamAddMode` (`graph.cc`): stores the mode in
the wrapper; it is applied to the engine only at start. -/
def Graph.SetGraphInputStreamAddMode (g : Graph)
    (mode : GraphInputStreamAddMode) : Graph :=
  { g with graph_input_stream_add_mode := mode }

/-- The `nativeSetGraphInputStreamBlockingMode` (`graph_jni.cc`): boolean
`true` selects `WAIT_TILL_NOT_FULL`, `false` selects `ADD_IF_NOT_FULL`. -/
def nativeSetGraphInputStreamBlockingMode (g : Graph) (mode : Bool) : Graph :=
  if mode then
    g.SetGraphInputStreamAddMode GraphInputStreamAddMode.WAIT_TILL_NOT_FULL
  else
    g.SetGraphInputStreamAddMode GraphInputStreamAddMode.ADD_IF_NOT_FULL

/-- The `Graph::StartRunningGraph` (`graph.cc`): refuses when a run is already
in progress; otherwise allocates a fresh engine, installs the stored add
mode, and runs GPU-resource setup, service-packet setup, `Initialize` and
`StartRun` in that order (each an external engine call whose status is
passed in).  The first failing step resets `running_graph_` to null and
returns that status; when every step succeeds the engine stays installed
with its scheduler running. -/
def Graph.StartRunningGraph (g : Graph)
    (gpuStatus svcStatus initStatus startRunStatus : Status) :
    Status × Graph :=
  match g.running_graph with
  | some _ => (InternalError "Graph is already running.", g)
  | none =>
      let fresh : CalculatorGraph :=
        { addMode := g.graph_input_stream_add_mode
          cancelled := false
          schedulerRunning := false }
      let g1 := { g with running_graph := some fresh }
      if ¬gpuStatus.isOk then (gpuStatus, { g1 with running_graph := none })
      else if ¬svcStatus.isOk then (svcStatus, { g1 with running_graph := none })
      else if ¬initStatus.isOk then (initStatus, { g1 with running_graph := none })
      else if ¬startRunStatus.isOk then
        (startRunStatus, { g1 with running_graph := none })
      else
        (OkStatus,
         { g1 with running_graph := some { fresh with schedulerRunning := true } })

/-- The `Graph::CancelGraph` (`graph.cc`): forwards `Cancel` to the engine
when one is running, otherwise does nothing. -/
def Graph.CancelGraph (g : Graph) : Graph :=
  match g.running_graph with
  | none => g
  | some rg => { g with running_graph := some rg.Cancel }

/-- The `std::map::operator[]` followed by assignment on `all_packets_`
(`all_packets_[packet_context].reset(packet_context)`): replaces the
entry when the key is present, inserts it otherwise. -/
def mapInsert (m : List (Nat × Packet)) (k : Nat) (v : Packet) :
    List (Nat × Packet) :=
  if m.any (fun kv => kv.1 == k) then
    m.map (fun kv => if kv.1 == k then (k, v) else kv)
  else
    (k, v) :: m

/-- The `std::map::erase(key)` on `all_packets_`: drops the entry with the
given key (keys are unique in a `std::map`). -/
def mapErase (m : List (Nat × Packet)) (k : Nat) : List (Nat × Packet) :=
  m.filter (fun kv => kv.1 ≠ k)

/-- The `Graph::WrapPacketIntoContext` (`graph.cc`): allocates a fresh
`PacketWithContext` (a fresh map key, modelled by `nextHandle`), stores it
in `all_packets_`, and returns the handle. -/
def Graph.WrapPacketIntoContext (g : Graph) (p : Packet) : Nat × Graph :=
  let h := g.nextHandle
  (h, { g with all_packets := mapInsert g.all_packets h p
               nextHandle := h + 1 })

/-- The `Graph::RemovePacket` (`graph.cc`): erases the handle from the
`all_packets_` map of the owning graph and reports whether an entry was
actually erased (`erase(...) != 0`). -/
def Graph.RemovePacket (g : Graph) (h : Nat) : Bool × Graph :=
  (g.all_packets.any (fun kv => kv.1 == h),
   { g with all_packets := mapErase g.all_packets h })

/-- The `Graph::CallbackToJava(env, cb, packet)` (`graph.cc`): wraps the
packet into a handle, builds the Java packet and invokes the Java
callback (external JNI calls that do not touch `all_packets_`), then
removes the handle. -/
def Graph.CallbackToJava (g : Graph) (p : Packet) : Graph :=
  let wrapped := g.WrapPacketIntoContext p
  (wrapped.2.RemovePacket wrapped.1).2

/-- The `Graph::CallbackToJava(env, cb, packet, header_packet)` (`graph.cc`):
the two-packet variant wraps both packets, invokes the Java callback, and
removes both handles. -/
def Graph.CallbackToJavaWithHeader (g : Graph) (p header : Packet) : Graph :=
  let wrapped := g.WrapPacketIntoContext p
  let wrappedHeader := wrapped.2.WrapPacketIntoContext header
  ((wrappedHeader.2.RemovePacket wrapped.1).2.RemovePacket wrappedHeader.1).2

/-- Handle-freshness invariant of a `Graph`: every key of `all_packets_`
was produced by a past allocation, so it lies below `nextHandle`.  In the
source this is the freshness of addresses returned by `new`. -/
def Graph.handlesFresh (g : Graph) : Prop :=
  ∀ kv ∈ g.all_packets, kv.1 < g.nextHandle

instance (g : Graph) : Decidable g.handlesFresh := by
  unfold Graph.handlesFresh
  infer_instance

/-- The `CalculatorContract` (`calculator_contract.h`): the fields involved in
input-stream-handler selection.  `input_stream_handler_` starts out as
the empty string. -/
structure CalculatorContract where
  input_stream_handler : String := ""
  deriving DecidableEq, Repr

/-- A fresh contract, as built by `CalculatorContract::Initialize`:
no input-stream handler set. -/
def CalculatorContract.init : CalculatorContract := {}

/-- The `CalculatorContract::SetInputStreamHandler` (`calculator_contract.h`):
overwrites the stored handler name. -/
def CalculatorContract.SetInputStreamHandler (c : CalculatorContract)
    (name : String) : CalculatorContract :=
  { c with input_stream_handler := name }

/-- The `CalculatorContract::GetInputStreamHandler`
(`calculator_contract.h`): returns the stored name, the empty string when
none was ever set. -/
def CalculatorContract.GetInputStreamHandler (c : CalculatorContract) : String :=
  c.input_stream_handler

/-- Modelled from the spec: the input-stream-handler
resolution (it lives in the engine, not under `src/`).  Spec section 9:
"The override precedence is: graph-level override > node default > engine
default"; `calculator_contract.h` documents the same for the first two
("If there is an InputStreamHandler specified in the graph (.pbtxt) for
this Node, then the InputStreamHandler of the graph will take priority"). -/
def resolveInputStreamHandler (graphOverride : Option String)
    (contract : CalculatorContract) (engineDefault : String) : String :=
  match graphOverride with
  | some h => h
  | none =>
      if contract.GetInputStreamHandler ≠ "" then
        contract.GetInputStreamHandler
      else engineDefault

/-- The `RoundUp(size, multiple)`
(`tflite_tensors_to_segmentation_calculator.cc`, anonymous namespace):
`(size + multiple - 1) / multiple` with C++ `int` division (truncation
toward zero, `Int.tdiv`). -/
def RoundUp (size multiple : Int) : Int :=
  (size + multiple - 1).tdiv multiple

/-- The `TfLiteTensorsToSegmentationCalculatorOptions` proto fields used by
`LoadOptions`: optional tensor dimensions (`none` models an unset proto
field, i.e. `has_tensor_width()` false). -/
structure TfLiteTensorsToSegmentationCalculatorOptions where
  tensor_width : Option Int := none
  tensor_height : Option Int := none
  tensor_channels : Option Int := none
  deriving DecidableEq, Repr

/-- The `TfLiteTensorsToSegmentationCalculator::LoadOptions`
(`tflite_tensors_to_segmentation_calculator.cc`): fails (`RET_CHECK_FAIL`
returns an internal error) when any of `tensor_width`, `tensor_height`,
`tensor_channels` is unset or when `tensor_channels != 2`; otherwise
yields the three dimensions. -/
def TfLiteTensorsToSegmentationCalculator.LoadOptions
    (opts : TfLiteTensorsToSegmentationCalculatorOptions) :
    Except Status (Int × Int × Int) :=
  match opts.tensor_width, opts.tensor_height, opts.tensor_channels with
  | some w, some h, some c =>
      if c = 2 then Except.ok (w, h, c)
      else Except.error
        (InternalError "Only 2 channel segmentation tensor currently supported")
  | _, _, _ =>
      Except.error (InternalError "Missing tensor dimensions in options.")

/-- The `TfLiteTensorsToSegmentationCalculator::Open`
(`tflite_tensors_to_segmentation_calculator.cc`): with a `TENSORS_GPU`
input tag it sets `use_gpu_` and (on Android) opens the GL helper; then
`LoadOptions` runs; then with `use_gpu_` it initialises the GPU path on
Android and `RET_CHECK_FAIL`s elsewhere.  `gpuOpenStatus` and
`initGpuStatus` are the outcomes of the external GL calls.  `Open` never
emits a packet; the second component is the (always empty) list of
packets it emits. -/
def TfLiteTensorsToSegmentationCalculator.Open
    (hasTensorsGpuTag android : Bool) (gpuOpenStatus initGpuStatus : Status)
    (opts : TfLiteTensorsToSegmentationCalculatorOptions) :
    Status × List Packet :=
  if hasTensorsGpuTag ∧ android ∧ ¬gpuOpenStatus.isOk then
    (gpuOpenStatus, [])
  else
    match TfLiteTensorsToSegmentationCalculator.LoadOptions opts with
    | Except.error s => (s, [])
    | Except.ok _ =>
        if hasTensorsGpuTag then
          if android then (initGpuStatus, [])
          else
            (InternalError
              "GPU processing on non-Android devices is not supported yet.",
             [])
        else (OkStatus, [])

/-- The `cv::Mat` as used by `color_convert_calculator.cc`: an 8-bit image
with `rows` rows, `cols` columns and `channels` interleaved channels; each
row is the list of its `cols * channels` bytes. -/
structure Mat where
  rows : Nat
  cols : Nat
  channels : Nat
  data : List (List Nat)
  deriving DecidableEq, Repr

/-- A `Mat` is well formed when it has one data row per image row and
every data row holds exactly `cols * channels` entries. -/
def Mat.wellFormed (m : Mat) : Prop :=
  m.data.length = m.rows ∧ ∀ row ∈ m.data, row.length = m.cols * m.channels

/-- The inner loop of `SetColorChannel` (`color_convert_calculator.cc`):
`for (int offset = channel; offset < cols * step; offset += step)
row_ptr[offset] = value;`. -/
def setRowOffsets (row : List Nat) (offset bound step value : Nat) :
    List Nat :=
  if _h : offset < bound ∧ 0 < step then
    setRowOffsets (row.set offset value) (offset + step) bound step value
  else row
  termination_by bound - offset
  decreasing_by omega

/-- The `SetColorChannel(channel, value, mat)` (`color_convert_calculator.cc`,
anonymous namespace): writes `value` at every index
`channel, channel + step, ...` below `cols * step` of every row, where
`step = mat->channels()`. -/
def SetColorChannel (channel value : Nat) (mat : Mat) : Mat :=
  { mat with
    data := mat.data.map
      (fun row => setRowOffsets row channel (mat.cols * mat.channels)
        mat.channels value) }

/-- The OpenCV colour-conversion codes `color_convert_calculator.cc`
passes to `cv::cvtColor`. -/
inductive ColorConversionCode where
  | COLOR_RGBA2RGB
  | COLOR_GRAY2RGB
  | COLOR_RGB2GRAY
  | COLOR_RGB2RGBA
  deriving DecidableEq, Repr

/-- One row of an RGB image expanded to RGBA: `cv::cvtColor` with
`COLOR_RGB2RGBA` copies the three colour channels; the alpha channel it
produces is recorded as 0, following the source comment "cv::cvtColor
will leave the alpha channel set to 0". -/
def rgbRowToRgba : List Nat → List Nat
  | r :: g :: b :: rest => r :: g :: b :: 0 :: rgbRowToRgba rest
  | rest => rest

/-- One row of an RGBA image reduced to RGB (drops the alpha byte). -/
def rgbaRowToRgb : List Nat → List Nat
  | r :: g :: b :: _ :: rest => r :: g :: b :: rgbaRowToRgb rest
  | rest => rest

/-- One row of a grey image expanded to RGB (replicates each byte). -/
def grayRowToRgb : List Nat → List Nat
  | v :: rest => v :: v :: v :: grayRowToRgb rest
  | [] => []

/-- One row of an RGB image reduced to grey.  Modelled from the spec:
the OpenCV weighted greyscale conversion is external floating-point code
(out of scope, spec section 1); the model keeps only the shape, taking
the green channel as the grey value. -/
def rgbRowToGray : List Nat → List Nat
  | _ :: g :: _ :: rest => g :: rgbRowToGray rest
  | rest => rest

/-- The `cv::cvtColor(input, output, code)` as invoked by
`ColorConvertCalculator`: external OpenCV code, modelled per conversion
code on the row representation.  The destination `Mat` was allocated by
`ConvertAndOutput` with the matching output format, so the channel count
is that of the target format. -/
def cvtColor (code : ColorConversionCode) (input : Mat) : Mat :=
  match code with
  | ColorConversionCode.COLOR_RGB2RGBA =>
      { rows := input.rows, cols := input.cols, channels := 4
        data := input.data.map rgbRowToRgba }
  | ColorConversionCode.COLOR_RGBA2RGB =>
      { rows := input.rows, cols := input.cols, channels := 3
        data := input.data.map rgbaRowToRgb }
  | ColorConversionCode.COLOR_GRAY2RGB =>
      { rows := input.rows, cols := input.cols, channels := 3
        data := input.data.map grayRowToRgb }
  | ColorConversionCode.COLOR_RGB2GRAY =>
      { rows := input.rows, cols := input.cols, channels := 1
        data := input.data.map rgbRowToGray }

/-- The `ImageFormat::Format` values used by `ColorConvertCalculator`. -/
inductive ImageFormat where
  | SRGB
  | SRGBA
  | GRAY8
  deriving DecidableEq, Repr

/-- A packet emitted on an output stream by a calculator: tag, image and
timestamp. -/
structure OutputImagePacket where
  tag : String
  frame : Mat
  timestamp : Int
  deriving DecidableEq, Repr

/-- The `CalculatorContext` view `ColorConvertCalculator` uses: the tags
present on inputs and outputs, the input image per input tag, the
input timestamp of the invocation, and the packets emitted so far. -/
structure CalculatorContext where
  inputTags : List String
  outputTags : List String
  inputFrame : String → Mat
  inputTimestamp : Int
  outputs : List OutputImagePacket

/-- The `ColorConvertCalculator::ConvertAndOutput`
(`color_convert_calculator.cc`): reads the input frame, converts it with
`cv::cvtColor`, sets the alpha channel to 255 when the conversion code is
`COLOR_RGB2RGBA`, and adds exactly one output frame at the
input timestamp. -/
def ColorConvertCalculator.ConvertAndOutput (input_tag output_tag : String)
    (_output_format : ImageFormat) (open_cv_convert_code : ColorConversionCode)
    (cc : CalculatorContext) : Status × CalculatorContext :=
  let input_mat := cc.inputFrame input_tag
  let converted := cvtColor open_cv_convert_code input_mat
  let output_mat :=
    if open_cv_convert_code = ColorConversionCode.COLOR_RGB2RGBA then
      SetColorChannel 3 255 converted
    else converted
  (OkStatus,
   { cc with outputs := cc.outputs ++
       [{ tag := output_tag, frame := output_mat,
          timestamp := cc.inputTimestamp }] })

/-- The `ColorConvertCalculator::Process` (`color_convert_calculator.cc`):
dispatches on the input/output tags to the four supported conversions, in
source order; any other tag combination is an invalid-argument error. -/
def ColorConvertCalculator.Process (cc : CalculatorContext) :
    Status × CalculatorContext :=
  if cc.inputTags.contains "RGBA_IN" ∧ cc.outputTags.contains "RGB_OUT" then
    ColorConvertCalculator.ConvertAndOutput "RGBA_IN" "RGB_OUT"
      ImageFormat.SRGB ColorConversionCode.COLOR_RGBA2RGB cc
  else if cc.inputTags.contains "GRAY_IN" ∧ cc.outputTags.contains "RGB_OUT" then
    ColorConvertCalculator.ConvertAndOutput "GRAY_IN" "RGB_OUT"
      ImageFormat.SRGB ColorConversionCode.COLOR_GRAY2RGB cc
  else if cc.inputTags.contains "RGB_IN" ∧ cc.outputTags.contains "GRAY_OUT" then
    ColorConvertCalculator.ConvertAndOutput "RGB_IN" "GRAY_OUT"
      ImageFormat.GRAY8 ColorConversionCode.COLOR_RGB2GRAY cc
  else if cc.inputTags.contains "RGB_IN" ∧ cc.outputTags.contains "RGBA_OUT" then
    ColorConvertCalculator.ConvertAndOutput "RGB_IN" "RGBA_OUT"
      ImageFormat.SRGBA ColorConversionCode.COLOR_RGB2RGBA cc
  else
    (InvalidArgumentError "Unsupported image format conversion.", cc)

/-- A config with a duplicate producer: two nodes both declare the output
stream `out`.  It is a perfectly parseable proto, yet malformed by the
well-formedness invariants. -/
def duplicateProducerConfig : CalculatorGraphConfig :=
  { input_stream := ["in"]
    node :=
      [ { calculator := "PassThroughCalculator"
          input_stream := ["in"], output_stream := ["out"] }
      , { calculator := "PassThroughCalculator"
          input_stream := ["in"], output_stream := ["out"] } ] }

/-! Theorems settling the claims. -/

/-- C1 counterexample: a malformed configuration (here: a duplicate
producer) that is nevertheless a parseable proto is accepted by
`Graph::LoadBinaryGraph` — the call returns OK and marks the graph
loaded, instead of returning a ConfigError-kind failure. -/
theorem load_accepts_malformed_config :
    hasDuplicateProducer duplicateProducerConfig = true ∧
    (Graph.init.LoadBinaryGraphBytes (some duplicateProducerConfig)).1.isOk
      = true ∧
    (Graph.init.LoadBinaryGraphBytes (some duplicateProducerConfig)).2.graph_loaded
      = true := by
  refine ⟨by decide, rfl, rfl⟩

/-- C1 (amended): `Graph::LoadBinaryGraph` performs no topology
validation.  It fails exactly when reading the file or parsing the bytes
fails (and then with the read error or `InvalidArgumentError`, not a
topology check), and on any failure the `Graph` is left exactly as it
was — in particular it is not marked loaded.  Any parseable config loads
successfully. -/
theorem load_fails_only_on_parse_failure (g : Graph)
    (parsed : Option CalculatorGraphConfig)
    (contents : Except Status (List Nat))
    (parse : List Nat → Option CalculatorGraphConfig) :
    ((g.LoadBinaryGraphBytes parsed).1.isOk = false →
      (g.LoadBinaryGraphBytes parsed).2 = g) ∧
    (∀ cfg, parsed = some cfg →
      g.LoadBinaryGraphBytes parsed =
        (OkStatus, { g with graph := cfg, graph_loaded := true })) ∧
    (parsed = none →
      g.LoadBinaryGraphBytes parsed =
        (InvalidArgumentError "Failed to parse the graph", g)) ∧
    ((g.LoadBinaryGraphFile contents parse).1.isOk = false →
      (g.LoadBinaryGraphFile contents parse).2 = g) ∧
    (∀ bytes, contents = Except.ok bytes →
      ((g.LoadBinaryGraphFile contents parse).1.isOk = true ↔
        (parse bytes).isSome = true)) := by
  refine ⟨?_, ?_, ?_, ?_, ?_⟩
  · cases parsed <;> simp [Graph.LoadBinaryGraphBytes, Status.isOk, OkStatus,
      InvalidArgumentError]
  · intro cfg hcfg
    subst hcfg
    rfl
  · intro hnone
    subst hnone
    rfl
  · cases contents with
    | error s => simp [Graph.LoadBinaryGraphFile]
    | ok bytes =>
        cases hp : parse bytes <;>
          simp [Graph.LoadBinaryGraphFile, hp, Status.isOk, OkStatus,
            InvalidArgumentError]
  · intro bytes hbytes
    subst hbytes
    cases hp : parse bytes <;>
      simp [Graph.LoadBinaryGraphFile, hp, Status.isOk, OkStatus,
        InvalidArgumentError]

/-- Witness for the amended C1 theorem at concrete inputs: a parse
failure on a fresh graph returns the parse error and leaves the graph
unchanged (hence unloaded). -/
theorem load_fails_only_on_parse_failure_witness :
    (Graph.init.LoadBinaryGraphBytes none).2 = Graph.init ∧
    Graph.init.LoadBinaryGraphBytes none =
      (InvalidArgumentError "Failed to parse the graph", Graph.init) := by
  have h := load_fails_only_on_parse_failure Graph.init none
    (Except.error (InternalError "boom")) (fun _ => none)
  exact ⟨h.1 rfl, h.2.2.1 rfl⟩

/-- C2: each of `AddPacketToInputStream`, `CloseInputStream`,
`CloseAllInputStreams`, `CloseAllPacketSources`, `WaitUntilDone` and
`WaitUntilIdle` returns `FailedPreconditionError` and leaves the graph
unchanged whenever no run is in progress (never started, or the previous
`WaitUntilDone` reset the running graph). -/
theorem lifecycle_ops_fail_when_not_running (g : Graph)
    (engineResult : Status) (hnr : g.running_graph = none) :
    g.AddPacketToInputStream engineResult =
      (FailedPreconditionError "Graph must be running.", g) ∧
    g.CloseInputStream engineResult =
      (FailedPreconditionError "Graph must be running.", g) ∧
    g.CloseAllInputStreams engineResult =
      (FailedPreconditionError "Graph must be running.", g) ∧
    g.CloseAllPacketSources engineResult =
      (FailedPreconditionError "Graph must be running.", g) ∧
    g.WaitUntilDone engineResult =
      (FailedPreconditionError "Graph must be running.", g) ∧
    g.WaitUntilIdle engineResult =
      (FailedPreconditionError "Graph must be running.", g) := by
  simp [Graph.AddPacketToInputStream, Graph.CloseInputStream,
    Graph.CloseAllInputStreams, Graph.CloseAllPacketSources,
    Graph.WaitUntilDone, Graph.WaitUntilIdle, hnr]

/-- Witness for the C2 theorem on a fresh (never started) graph. -/
theorem lifecycle_ops_fail_when_not_running_witness :
    Graph.init.AddPacketToInputStream OkStatus =
      (FailedPreconditionError "Graph must be running.", Graph.init) ∧
    Graph.init.WaitUntilDone OkStatus =
      (FailedPreconditionError "Graph must be running.", Graph.init) := by
  have h := lifecycle_ops_fail_when_not_running Graph.init OkStatus rfl
  exact ⟨h.1, h.2.2.2.2.1⟩

/-- C3: `StartRunningGraph` is atomic.  With a run already in progress it
returns an error and leaves the graph (including the running engine)
untouched; when any setup step fails it returns that failure with the
graph exactly as before (not running), so a subsequent
`AddPacketToInputStream` fails with `FailedPreconditionError`; on success
the installed engine has its scheduler running. -/
theorem start_running_graph_atomic (g : Graph)
    (gpuStatus svcStatus initStatus startRunStatus : Status) :
    (g.running_graph.isSome = true →
      g.StartRunningGraph gpuStatus svcStatus initStatus startRunStatus =
        (InternalError "Graph is already running.", g)) ∧
    (g.running_graph = none →
      (g.StartRunningGraph gpuStatus svcStatus initStatus
          startRunStatus).1.isOk = false →
      (g.StartRunningGraph gpuStatus svcStatus initStatus
          startRunStatus).2 = g ∧
      ∀ engineResult,
        ((g.StartRunningGraph gpuStatus svcStatus initStatus
            startRunStatus).2.AddPacketToInputStream engineResult) =
          (FailedPreconditionError "Graph must be running.",
           (g.StartRunningGraph gpuStatus svcStatus initStatus
              startRunStatus).2)) ∧
    (g.running_graph = none →
      (g.StartRunningGraph gpuStatus svcStatus initStatus
          startRunStatus).1.isOk = true →
      (g.StartRunningGraph gpuStatus svcStatus initStatus
          startRunStatus).2.running_graph =
        some { addMode := g.graph_input_stream_add_mode
               cancelled := false
               schedulerRunning := true }) := by
  obtain ⟨gl, gc, rg, mode, sp, sh, ap, nh⟩ := g
  refine ⟨?_, ?_, ?_⟩
  · intro hsome
    cases rg with
    | none => simp at hsome
    | some r => rfl
  · intro hnone hfail
    cases rg with
    | some r => simp at hnone
    | none =>
        by_cases h1 : gpuStatus.isOk <;>
          by_cases h2 : svcStatus.isOk <;>
            by_cases h3 : initStatus.isOk <;>
              by_cases h4 : startRunStatus.isOk <;>
                simp_all [Graph.StartRunningGraph, Status.isOk, OkStatus,
                  Graph.AddPacketToInputStream]
  · intro hnone hok
    cases rg with
    | some r => simp at hnone
    | none =>
        by_cases h1 : gpuStatus.isOk <;>
          by_cases h2 : svcStatus.isOk <;>
            by_cases h3 : initStatus.isOk <;>
              by_cases h4 : startRunStatus.isOk <;>
                simp_all [Graph.StartRunningGraph, Status.isOk, OkStatus]

/-- Witness for the C3 theorem: on a fresh graph whose `Initialize` step
fails, the state is unchanged and a subsequent add-packet call fails with
`FailedPreconditionError`; and on a fresh graph where every step
succeeds, the installed engine has its scheduler running. -/
theorem start_running_graph_atomic_witness :
    ((Graph.init.StartRunningGraph OkStatus OkStatus
        (InternalError "bad config") OkStatus).2 = Graph.init ∧
      ((Graph.init.StartRunningGraph OkStatus OkStatus
          (InternalError "bad config") OkStatus).2.AddPacketToInputStream
            OkStatus) =
        (FailedPreconditionError "Graph must be running.",
         (Graph.init.StartRunningGraph OkStatus OkStatus
            (InternalError "bad config") OkStatus).2)) ∧
    (Graph.init.StartRunningGraph OkStatus OkStatus OkStatus
        OkStatus).2.running_graph =
      some { addMode := GraphInputStreamAddMode.WAIT_TILL_NOT_FULL
             cancelled := false
             schedulerRunning := true } := by
  have hfail := (start_running_graph_atomic Graph.init OkStatus OkStatus
    (InternalError "bad config") OkStatus).2.1 rfl (by decide)
  have hok := (start_running_graph_atomic Graph.init OkStatus OkStatus
    OkStatus OkStatus).2.2 rfl (by decide)
  exact ⟨⟨hfail.1, hfail.2 OkStatus⟩, hok⟩

/-- C4: the JNI blocking-mode boolean maps `true` to
`WAIT_TILL_NOT_FULL` and `false` to `ADD_IF_NOT_FULL`, and whatever mode
the wrapper stores is exactly the mode installed on the engine created by
a successful `StartRunningGraph`. -/
theorem blocking_mode_stored_and_applied (g : Graph) (b : Bool)
    (gpuStatus svcStatus initStatus startRunStatus : Status)
    (hnr : g.running_graph = none)
    (h1 : gpuStatus.isOk = true) (h2 : svcStatus.isOk = true)
    (h3 : initStatus.isOk = true) (h4 : startRunStatus.isOk = true) :
    (nativeSetGraphInputStreamBlockingMode g b).graph_input_stream_add_mode
      = (if b then GraphInputStreamAddMode.WAIT_TILL_NOT_FULL
         else GraphInputStreamAddMode.ADD_IF_NOT_FULL) ∧
    ((nativeSetGraphInputStreamBlockingMode g b).StartRunningGraph
        gpuStatus svcStatus initStatus startRunStatus).2.running_graph.map
          CalculatorGraph.addMode
      = some (if b then GraphInputStreamAddMode.WAIT_TILL_NOT_FULL
              else GraphInputStreamAddMode.ADD_IF_NOT_FULL) := by
  constructor
  · cases b <;>
      simp [nativeSetGraphInputStreamBlockingMode,
        Graph.SetGraphInputStreamAddMode]
  · cases b <;>
      simp [nativeSetGraphInputStreamBlockingMode,
        Graph.SetGraphInputStreamAddMode, Graph.StartRunningGraph, hnr,
        h1, h2, h3, h4]

/-- Witness for the C4 theorem on a fresh graph, both boolean values. -/
theorem blocking_mode_stored_and_applied_witness :
    (nativeSetGraphInputStreamBlockingMode Graph.init
        true).graph_input_stream_add_mode
      = GraphInputStreamAddMode.WAIT_TILL_NOT_FULL ∧
    (nativeSetGraphInputStreamBlockingMode Graph.init
        false).graph_input_stream_add_mode
      = GraphInputStreamAddMode.ADD_IF_NOT_FULL ∧
    ((nativeSetGraphInputStreamBlockingMode Graph.init
        false).StartRunningGraph OkStatus OkStatus OkStatus
          OkStatus).2.running_graph.map CalculatorGraph.addMode
      = some GraphInputStreamAddMode.ADD_IF_NOT_FULL := by
  have ht := blocking_mode_stored_and_applied Graph.init true
    OkStatus OkStatus OkStatus OkStatus rfl rfl rfl rfl rfl
  have hf := blocking_mode_stored_and_applied Graph.init false
    OkStatus OkStatus OkStatus OkStatus rfl rfl rfl rfl rfl
  exact ⟨ht.1, hf.1, hf.2⟩

/-- C6: `CancelGraph` is idempotent — cancelling twice equals cancelling
once — and with no run in progress it leaves the graph unchanged. -/
theorem cancel_graph_idempotent (g : Graph) :
    g.CancelGraph.CancelGraph = g.CancelGraph ∧
    (g.running_graph = none → g.CancelGraph = g) := by
  constructor
  · cases hrg : g.running_graph <;>
      simp [Graph.CancelGraph, hrg, CalculatorGraph.Cancel]
  · intro hnone
    simp [Graph.CancelGraph, hnone]

/-- Witness for the C6 theorem: on a fresh graph, cancelling changes
nothing, and on a started graph cancelling twice equals cancelling
once. -/
theorem cancel_graph_idempotent_witness :
    Graph.init.CancelGraph = Graph.init ∧
    ((Graph.init.StartRunningGraph OkStatus OkStatus OkStatus
        OkStatus).2.CancelGraph.CancelGraph =
      (Graph.init.StartRunningGraph OkStatus OkStatus OkStatus
        OkStatus).2.CancelGraph) := by
  exact ⟨(cancel_graph_idempotent Graph.init).2 rfl,
    (cancel_graph_idempotent (Graph.init.StartRunningGraph OkStatus OkStatus
      OkStatus OkStatus).2).1⟩

/-- C7: a graph-level input-stream-handler specification takes priority
over a node default set via `CalculatorContract::SetInputStreamHandler`,
and `GetInputStreamHandler` returns the most recently set name, the empty
string when none was ever set. -/
theorem input_stream_handler_precedence (c : CalculatorContract)
    (nodeDefault engineDefault n1 n2 : String) :
    (∀ graphOverride : String,
      resolveInputStreamHandler (some graphOverride)
        (c.SetInputStreamHandler nodeDefault) engineDefault
        = graphOverride) ∧
    (c.SetInputStreamHandler nodeDefault).GetInputStreamHandler
      = nodeDefault ∧
    ((c.SetInputStreamHandler n1).SetInputStreamHandler
        n2).GetInputStreamHandler = n2 ∧
    CalculatorContract.init.GetInputStreamHandler = "" := by
  exact ⟨fun _ => rfl, rfl, rfl, rfl⟩

/-- C8: `TfLiteTensorsToSegmentationCalculator::Open` fails whenever the
calculator options lack `tensor_width`, `tensor_height` or
`tensor_channels`, or have `tensor_channels` different from 2 — on every
platform and GPU configuration — and emits no packet. -/
theorem seg_open_fails_on_bad_options (hasTensorsGpuTag android : Bool)
    (gpuOpenStatus initGpuStatus : Status)
    (opts : TfLiteTensorsToSegmentationCalculatorOptions)
    (hbad : opts.tensor_width = none ∨ opts.tensor_height = none ∨
      opts.tensor_channels = none ∨ opts.tensor_channels ≠ some 2) :
    (TfLiteTensorsToSegmentationCalculator.Open hasTensorsGpuTag android
        gpuOpenStatus initGpuStatus opts).1.isOk = false ∧
    (TfLiteTensorsToSegmentationCalculator.Open hasTensorsGpuTag android
        gpuOpenStatus initGpuStatus opts).2 = [] := by
  have hload : ∃ s : Status,
      TfLiteTensorsToSegmentationCalculator.LoadOptions opts =
        Except.error s ∧ s.isOk = false := by
    obtain ⟨w, hh, ch⟩ := opts
    cases w with
    | none => exact ⟨_, rfl, by decide⟩
    | some w =>
      cases hh with
      | none => exact ⟨_, rfl, by decide⟩
      | some hh =>
        cases ch with
        | none => exact ⟨_, rfl, by decide⟩
        | some ch =>
          have hch : ch ≠ 2 := by simpa using hbad
          exact ⟨InternalError
              "Only 2 channel segmentation tensor currently supported",
            by simp [TfLiteTensorsToSegmentationCalculator.LoadOptions, hch],
            by decide⟩
  obtain ⟨s, hs, hsOk⟩ := hload
  unfold TfLiteTensorsToSegmentationCalculator.Open
  split
  · next hguard =>
      refine ⟨?_, rfl⟩
      simpa using hguard.2.2
  · rw [hs]
    exact ⟨hsOk, rfl⟩

/-- Witness for the C8 theorem: empty options (no tensor dimensions at
all) make `Open` fail and emit nothing. -/
theorem seg_open_fails_on_bad_options_witness :
    (TfLiteTensorsToSegmentationCalculator.Open false false OkStatus
        OkStatus {}).1.isOk = false ∧
    (TfLiteTensorsToSegmentationCalculator.Open false false OkStatus
        OkStatus {}).2 = [] :=
  seg_open_fails_on_bad_options false false OkStatus OkStatus {}
    (Or.inl rfl)

/-- Inserting a key no existing entry carries prepends the new entry. -/
theorem mapInsert_fresh (m : List (Nat × Packet)) (k : Nat) (v : Packet)
    (hf : ∀ kv ∈ m, kv.1 ≠ k) : mapInsert m k v = (k, v) :: m := by
  unfold mapInsert
  rw [if_neg]
  simp only [List.any_eq_true, beq_iff_eq, not_exists, not_and]
  intro kv hkv
  exact hf kv hkv

/-- Erasing a key no entry carries changes nothing. -/
theorem mapErase_not_mem (m : List (Nat × Packet)) (k : Nat)
    (hf : ∀ kv ∈ m, kv.1 ≠ k) : mapErase m k = m := by
  unfold mapErase
  induction m with
  | nil => rfl
  | cons kv rest ih =>
      rw [List.filter_cons]
      rw [if_pos (by simpa using hf kv (List.mem_cons_self kv rest))]
      rw [ih (fun kv' hkv' => hf kv' (List.mem_cons_of_mem kv hkv'))]

/-- C5: wrapping a packet into a handle and removing that handle
succeeds (`RemovePacket` returns `true`) and restores the packet-reference
map `all_packets_` exactly; consequently `CallbackToJava` in both its
one-packet and packet-with-header forms leaves the map as it found it, so
callback delivery leaks no packet references. -/
theorem wrap_remove_restores_packet_map (g : Graph) (p header : Packet)
    (hf : g.handlesFresh) :
    ((g.WrapPacketIntoContext p).2.RemovePacket
        (g.WrapPacketIntoContext p).1).1 = true ∧
    ((g.WrapPacketIntoContext p).2.RemovePacket
        (g.WrapPacketIntoContext p).1).2.all_packets = g.all_packets ∧
    (g.CallbackToJava p).all_packets = g.all_packets ∧
    (g.CallbackToJavaWithHeader p header).all_packets = g.all_packets := by
  have hfresh : ∀ kv ∈ g.all_packets, kv.1 ≠ g.nextHandle :=
    fun kv hkv => Nat.ne_of_lt (hf kv hkv)
  have hfresh1 : ∀ kv ∈ g.all_packets, kv.1 ≠ g.nextHandle + 1 :=
    fun kv hkv => Nat.ne_of_lt (Nat.lt_succ_of_lt (hf kv hkv))
  have herase : mapErase ((g.nextHandle, p) :: g.all_packets) g.nextHandle
      = g.all_packets := by
    simp only [mapErase, List.filter_cons]
    rw [if_neg (by simp)]
    exact mapErase_not_mem g.all_packets g.nextHandle hfresh
  have hstep1 : mapErase
      ((g.nextHandle + 1, header) :: (g.nextHandle, p) :: g.all_packets)
      g.nextHandle = (g.nextHandle + 1, header) :: g.all_packets := by
    simp only [mapErase, List.filter_cons]
    rw [if_pos (by simp), if_neg (by simp)]
    exact congrArg _ (mapErase_not_mem g.all_packets g.nextHandle hfresh)
  have hstep2 : mapErase ((g.nextHandle + 1, header) :: g.all_packets)
      (g.nextHandle + 1) = g.all_packets := by
    simp only [mapErase, List.filter_cons]
    rw [if_neg (by simp)]
    exact mapErase_not_mem g.all_packets (g.nextHandle + 1) hfresh1
  refine ⟨?_, ?_, ?_, ?_⟩
  · simp only [Graph.WrapPacketIntoContext, Graph.RemovePacket]
    rw [mapInsert_fresh g.all_packets _ _ hfresh]
    simp
  · simp only [Graph.WrapPacketIntoContext, Graph.RemovePacket]
    rw [mapInsert_fresh g.all_packets _ _ hfresh]
    exact herase
  · simp only [Graph.CallbackToJava, Graph.WrapPacketIntoContext,
      Graph.RemovePacket]
    rw [mapInsert_fresh g.all_packets _ _ hfresh]
    exact herase
  · simp only [Graph.CallbackToJavaWithHeader, Graph.WrapPacketIntoContext,
      Graph.RemovePacket]
    rw [mapInsert_fresh g.all_packets _ _ hfresh]
    rw [mapInsert_fresh ((g.nextHandle, p) :: g.all_packets)
      (g.nextHandle + 1) header (by
        intro kv hkv
        rw [List.mem_cons] at hkv
        rcases hkv with h | h
        · rw [h]; omega
        · exact hfresh1 kv h)]
    rw [hstep1, hstep2]

/-- Witness for the C5 theorem on a graph already holding one wrapped
packet: the round trip returns `true` and restores the map, and both
callback forms leave the map untouched. -/
theorem wrap_remove_restores_packet_map_witness :
    (({ Graph.init with all_packets := [(0, ⟨5, 3⟩)], nextHandle := 1
        } : Graph).CallbackToJava ⟨7, 4⟩).all_packets = [(0, ⟨5, 3⟩)] ∧
    (({ Graph.init with all_packets := [(0, ⟨5, 3⟩)], nextHandle := 1
        } : Graph).CallbackToJavaWithHeader ⟨7, 4⟩ ⟨8, 4⟩).all_packets
      = [(0, ⟨5, 3⟩)] := by
  have h := wrap_remove_restores_packet_map
    { Graph.init with all_packets := [(0, ⟨5, 3⟩)], nextHandle := 1 }
    ⟨7, 4⟩ ⟨8, 4⟩ (by decide)
  exact ⟨h.2.2.1, h.2.2.2⟩

/-- C10: for `size ≥ 0` and `multiple ≥ 1`, `RoundUp(size, multiple)` is
the least integer `n` with `n * multiple ≥ size`, i.e. the ceiling of
`size / multiple`. -/
theorem RoundUp_is_ceil (size multiple : Int) (hs : 0 ≤ size)
    (hm : 1 ≤ multiple) :
    size ≤ RoundUp size multiple * multiple ∧
    ∀ n : Int, size ≤ n * multiple → RoundUp size multiple ≤ n := by
  have hnum : 0 ≤ size + multiple - 1 := by omega
  have hmul : 0 ≤ multiple := by omega
  have htd : (size + multiple - 1).tdiv multiple
      = (size + multiple - 1) / multiple := Int.tdiv_eq_ediv hnum hmul
  have hdm := Int.ediv_add_emod (size + multiple - 1) multiple
  have hr0 : 0 ≤ (size + multiple - 1) % multiple :=
    Int.emod_nonneg _ (by omega)
  have hrlt : (size + multiple - 1) % multiple < multiple :=
    Int.emod_lt_of_pos _ (by omega)
  constructor
  · unfold RoundUp
    rw [htd]
    nlinarith [hdm, hr0, hrlt]
  · intro n hn
    unfold RoundUp
    rw [htd]
    by_contra hlt
    push_neg at hlt
    have h1 : n + 1 ≤ (size + multiple - 1) / multiple := by omega
    have h2 : (n + 1) * multiple
        ≤ ((size + multiple - 1) / multiple) * multiple :=
      mul_le_mul_of_nonneg_right h1 hmul
    nlinarith [hdm, hr0, hrlt]

/-- Witness for the C10 theorem at size 5, multiple 2: the hypotheses
hold and `RoundUp 5 2 = 3` covers 5. -/
theorem RoundUp_is_ceil_witness :
    RoundUp 5 2 = 3 ∧ (5 : Int) ≤ RoundUp 5 2 * 2 := by
  exact ⟨by decide, (RoundUp_is_ceil 5 2 (by decide) (by decide)).1⟩

/-- The loop of `SetColorChannel` preserves the row length. -/
theorem setRowOffsets_length (row : List Nat)
    (offset bound step value : Nat) :
    (setRowOffsets row offset bound step value).length = row.length := by
  rw [setRowOffsets.eq_def]
  split
  · next h =>
      rw [setRowOffsets_length (row.set offset value) (offset + step) bound
        step value]
      exact List.length_set row offset value
  · rfl
  termination_by bound - offset
  decreasing_by omega

/-- The loop of `SetColorChannel` never touches indices below the current
offset. -/
theorem setRowOffsets_getElem_below (row : List Nat)
    (offset bound step value i : Nat) (hi : i < offset) :
    (setRowOffsets row offset bound step value)[i]? = row[i]? := by
  rw [setRowOffsets.eq_def]
  split
  · next h =>
      rw [setRowOffsets_getElem_below (row.set offset value) (offset + step)
        bound step value i (by omega)]
      exact List.getElem?_set_ne (by omega)
  · rfl
  termination_by bound - offset
  decreasing_by omega

/-- The loop of `SetColorChannel` writes `value` at every in-bounds index
reached from the offset in steps of `step`. -/
theorem setRowOffsets_getElem_written (row : List Nat)
    (offset bound step value i : Nat) (hs : 0 < step) (hoi : offset ≤ i)
    (hib : i < bound) (hmod : (i - offset) % step = 0)
    (hilen : i < row.length) :
    (setRowOffsets row offset bound step value)[i]? = some value := by
  rw [setRowOffsets.eq_def]
  rw [dif_pos ⟨Nat.lt_of_le_of_lt hoi hib, hs⟩]
  by_cases hieq : i = offset
  · subst hieq
    rw [setRowOffsets_getElem_below (row.set i value) (i + step) bound step
      value i (by omega)]
    exact List.getElem?_set_self hilen
  · have hdvd : step ∣ (i - offset) := Nat.dvd_of_mod_eq_zero hmod
    have hstep_le : step ≤ i - offset := Nat.le_of_dvd (by omega) hdvd
    have hmod' : (i - (offset + step)) % step = 0 := by
      have hsub : i - (offset + step) = (i - offset) - step := by omega
      rw [hsub]
      exact Nat.mod_eq_zero_of_dvd (Nat.dvd_sub' hdvd (Nat.dvd_refl step))
    rw [setRowOffsets_getElem_written (row.set offset value) (offset + step)
      bound step value i hs (by omega) hib hmod'
      (by rw [List.length_set]; exact hilen)]
  termination_by bound - offset
  decreasing_by omega

/-- The `rgbRowToRgba` turns a row of `3 * k` bytes into one of `4 * k`. -/
theorem rgbRowToRgba_length (k : Nat) :
    ∀ l : List Nat, l.length = 3 * k → (rgbRowToRgba l).length = 4 * k := by
  induction k with
  | zero =>
      intro l hl
      rw [Nat.mul_zero] at hl
      rw [List.length_eq_zero.mp hl]
      rfl
  | succ k ih =>
      intro l hl
      match l with
      | [] => simp only [List.length_nil] at hl; omega
      | [r] => simp only [List.length_cons, List.length_nil] at hl; omega
      | [r, g] => simp only [List.length_cons, List.length_nil] at hl; omega
      | r :: g :: b :: rest =>
          have hrest : rest.length = 3 * k := by
            simp at hl
            omega
          show (r :: g :: b :: 0 :: rgbRowToRgba rest).length = 4 * (k + 1)
          simp [ih rest hrest]
          omega

/-- C9: a successful RGB→RGBA `Process` invocation of
`ColorConvertCalculator` emits exactly one image packet on the RGBA
output, at the input timestamp of the invocation, and the alpha channel (byte
3 of each 4-byte pixel) of every pixel of the emitted image is 255. -/
theorem rgb_to_rgba_emits_opaque_alpha (cc : CalculatorContext)
    (hin : cc.inputTags = ["RGB_IN"]) (hout : cc.outputTags = ["RGBA_OUT"])
    (hrowlen : ∀ row ∈ (cc.inputFrame "RGB_IN").data,
      row.length = (cc.inputFrame "RGB_IN").cols * 3) :
    (ColorConvertCalculator.Process cc).1 = OkStatus ∧
    ∃ out : Mat,
      (ColorConvertCalculator.Process cc).2.outputs =
        cc.outputs ++ [{ tag := "RGBA_OUT", frame := out,
                         timestamp := cc.inputTimestamp }] ∧
      out.channels = 4 ∧
      out.cols = (cc.inputFrame "RGB_IN").cols ∧
      out.rows = (cc.inputFrame "RGB_IN").rows ∧
      ∀ row ∈ out.data, ∀ pix, pix < out.cols →
        row[4 * pix + 3]? = some 255 := by
  have hproc : ColorConvertCalculator.Process cc =
      ColorConvertCalculator.ConvertAndOutput "RGB_IN" "RGBA_OUT"
        ImageFormat.SRGBA ColorConversionCode.COLOR_RGB2RGBA cc := by
    rw [ColorConvertCalculator.Process]
    rw [if_neg (by rw [hin, hout]; decide),
      if_neg (by rw [hin, hout]; decide),
      if_neg (by rw [hin, hout]; decide),
      if_pos (by rw [hin, hout]; decide)]
  rw [hproc, ColorConvertCalculator.ConvertAndOutput]
  refine ⟨rfl, SetColorChannel 3 255
    (cvtColor ColorConversionCode.COLOR_RGB2RGBA (cc.inputFrame "RGB_IN")),
    by simp, rfl, rfl, rfl, ?_⟩
  intro row hrow pix hpix
  simp only [SetColorChannel, cvtColor, List.map_map, List.mem_map] at hrow
  obtain ⟨row0, hrow0, hrow_eq⟩ := hrow
  have hlen0 : row0.length = 3 * (cc.inputFrame "RGB_IN").cols := by
    rw [hrowlen row0 hrow0]
    omega
  have hlen : (rgbRowToRgba row0).length
      = 4 * (cc.inputFrame "RGB_IN").cols :=
    rgbRowToRgba_length (cc.inputFrame "RGB_IN").cols row0 hlen0
  subst hrow_eq
  simp only [SetColorChannel, cvtColor] at hpix ⊢
  exact setRowOffsets_getElem_written (rgbRowToRgba row0) 3
    ((cc.inputFrame "RGB_IN").cols * 4) 4 255 (4 * pix + 3) (by omega)
    (by omega) (by omega) (by omega) (by omega)

/-- Witness for the C9 theorem on a concrete 1-by-2 RGB image at
timestamp 7. -/
theorem rgb_to_rgba_emits_opaque_alpha_witness :
    (ColorConvertCalculator.Process
      { inputTags := ["RGB_IN"], outputTags := ["RGBA_OUT"]
        inputFrame := fun _ =>
          { rows := 1, cols := 2, channels := 3
            data := [[10, 20, 30, 40, 50, 60]] }
        inputTimestamp := 7, outputs := [] }).1 = OkStatus ∧
    ∃ out : Mat,
      (ColorConvertCalculator.Process
        { inputTags := ["RGB_IN"], outputTags := ["RGBA_OUT"]
          inputFrame := fun _ =>
            { rows := 1, cols := 2, channels := 3
              data := [[10, 20, 30, 40, 50, 60]] }
          inputTimestamp := 7, outputs := [] }).2.outputs =
        [{ tag := "RGBA_OUT", frame := out, timestamp := 7 }] ∧
      ∀ row ∈ out.data, ∀ pix, pix < out.cols →
        row[4 * pix + 3]? = some 255 := by
  obtain ⟨h1, out, h2, hc4, hcols, hrows, halpha⟩ :=
    rgb_to_rgba_emits_opaque_alpha
      { inputTags := ["RGB_IN"], outputTags := ["RGBA_OUT"]
        inputFrame := fun _ =>
          { rows := 1, cols := 2, channels := 3
            data := [[10, 20, 30, 40, 50, 60]] }
        inputTimestamp := 7, outputs := [] }
      rfl rfl
      (by
        intro row hrow
        simp only [List.mem_singleton] at hrow
        subst hrow
        rfl)
  exact ⟨h1, out, by simpa using h2, halpha⟩

end Mediapipe

